import Mathlib

/-!
Shallow embedding of the Evolution Visualizer simulation core
(src/app/creatures.py, src/app/constants.py, src/app/nn.py, src/app/main.py).

Modelling conventions:
* Python floats are modelled as rationals.  The transcendental primitives the
  code calls (math.cos, math.sin, math.acos, math.sqrt, math.tanh, math.pi,
  and pygame's degree-based from_polar) are abstracted into an Ops record of
  rational functions; every universally quantified theorem holds for every
  instantiation of Ops, and concrete witnesses fix a particular instantiation.
  math.hypot x y is sqrt (x*x + y*y) and math.radians d is d * pi / 180.
* Several names referenced by the code (OBSTACLE_PENALTY, CREATURE_BASE_SPEED,
  MAX_TURN_ANGLE, COLLISION_PENALTY_BREEDING, BURST_FITNESS_BONUS, obstacle
  spawn constants) are absent from src/app/constants.py; the spec treats all
  of them as external configuration, so they live in a Params record together
  with the argparse-overridable constants.
* Randomness (random.uniform, random.choice, random spawn positions) is
  abstracted into an Oracle record supplying the drawn values; the logic that
  consumes the drawn values is transcribed from the source.
* Python mutates objects in place; the embedding threads updated records.
  Pythons float % and int() are pymod and pyint below; range(n) is pyrange n.
* The nearest-neighbour filter (other_creature != self) compares object
  identity in Python; here creatures are compared structurally, which agrees
  with identity whenever two creatures differ in at least one field.
-/

namespace EvoViz

/-- Abstracted real-valued primitives used by the Python code. -/
structure Ops where
  cos : ℚ → ℚ
  sin : ℚ → ℚ
  acos : ℚ → ℚ
  sqrt : ℚ → ℚ
  tanh : ℚ → ℚ
  pi : ℚ

/-- math.radians: degrees to radians. -/
def Ops.radians (o : Ops) (d : ℚ) : ℚ := d * o.pi / 180

/-- math.hypot. -/
def Ops.hypot (o : Ops) (x y : ℚ) : ℚ := o.sqrt (x * x + y * y)

/-- Configuration record: the constants of src/app/constants.py (several of
which argparse can override) plus the names the code references that
constants.py does not define. -/
structure Params where
  WIDTH : ℚ
  HEIGHT : ℚ
  CREATURE_RADIUS : ℚ
  CREATURE_MAX_ENERGY : ℚ
  CREATURE_ENERGY_DECAY : ℚ
  FOOD_ENERGY_GAIN : ℚ
  FOOD_RADIUS : ℚ
  MAX_FOOD_COUNT : ℕ
  CREATURE_BASE_SPEED : ℚ
  MAX_TURN_ANGLE : ℚ
  BURST_ENERGY_COST : ℚ
  BURST_SPEED_MULTIPLIER : ℚ
  BURST_DURATION_FRAMES : ℤ
  BURST_NN_THRESHOLD : ℚ
  OBSTACLE_PENALTY : ℚ
  COLLISION_PENALTY_BREEDING : ℚ
  BURST_FITNESS_BONUS : ℚ
  GENERATION_LENGTH_FRAMES : ℤ
  FOOD_LIMIT_PER_GENERATION : ℤ
  SELECTION_PERCENTAGE : ℚ
  INITIAL_CREATURE_COUNT : ℕ

/-- constants.NN_INPUT_NODES. -/
def NN_INPUT_NODES : ℕ := 3

/-- constants.NN_OUTPUT_NODES (2: steering and burst). -/
def NN_OUTPUT_NODES : ℕ := 2

/-- Python float modulo (sign of the divisor): a % b. -/
def pymod (a b : ℚ) : ℚ := a - b * (⌊a / b⌋ : ℤ)

/-- Python int(): truncation toward zero. -/
def pyint (q : ℚ) : ℤ := if 0 ≤ q then ⌊q⌋ else -⌊-q⌋

/-- Python range(n) as a list, defined by recursion so it unfolds by simp. -/
def pyrange : ℕ → List ℕ
  | 0 => []
  | n + 1 => pyrange n ++ [n]

/-- Food: position and radius (creatures.py, class Food). -/
structure Food where
  x : ℚ
  y : ℚ
  radius : ℚ
deriving DecidableEq

/-- Obstacle: axis-aligned rectangle (creatures.py, class Obstacle). -/
structure Obstacle where
  x : ℚ
  y : ℚ
  width : ℚ
  height : ℚ
deriving DecidableEq

/-- Creature state (creatures.py, class Creature).  The color and the
obstacles_ref back-reference are omitted: no claim mentions color, and the
obstacle list is passed explicitly at each call site instead. -/
structure Creature where
  x : ℚ
  y : ℚ
  radius : ℚ
  energy : ℚ
  direction : ℚ
  speed : ℚ
  current_speed : ℚ
  is_bursting : Bool
  burst_frames_left : ℤ
  food_eaten_individual : ℕ
  collisions_individual : ℕ
  bursts_activated_individual : ℕ
  burst_energy_spent_individual : ℚ
  is_dying : Bool
  fade_alpha : ℚ
  nn_hidden_nodes : ℕ
  weights_ih : List (List ℚ)
  biases_h : List ℚ
  weights_ho : List (List ℚ)
  biases_o : List ℚ
deriving DecidableEq

/-- Creature.get_sensor_data (creatures.py lines 131-293).  The four sections
below are the four sequential append blocks of the source; each section value
is the list of elements that block appends to inputs. -/
def get_sensor_data (P : Params) (o : Ops) (c : Creature)
    (food_items : List Food) (all_creatures : List Creature)
    (obstacles : List Obstacle) : List ℚ :=
  let initBig := o.hypot P.WIDTH P.HEIGHT + 1
  let heading_x := o.cos (o.radians c.direction)
  let heading_y := o.sin (o.radians c.direction)
  let selfSection : List ℚ := [c.energy / P.CREATURE_MAX_ENERGY]
  let foodSection : List ℚ :=
    if food_items.isEmpty then [0, 0]
    else
      let nf := food_items.foldl
        (fun (best : ℚ × Option Food) food =>
          let dist := o.hypot (c.x - food.x) (c.y - food.y)
          if dist < best.1 then (dist, some food) else best)
        (initBig, none)
      match nf.2 with
      | none => [0, 0]
      | some nearest_food =>
        let max_possible_distance := o.hypot P.WIDTH P.HEIGHT
        let normalized_food_distance := nf.1 / max_possible_distance
        let fvx := nearest_food.x - c.x
        let fvy := nearest_food.y - c.y
        let dot := fvx * heading_x + fvy * heading_y
        let magF := o.hypot fvx fvy
        let magH := o.hypot heading_x heading_y
        if magF > 0 ∧ magH > 0 then
          let clamped := max (-1) (min 1 (dot / (magF * magH)))
          let angle_rad := o.acos clamped
          let cross := heading_x * fvy - heading_y * fvx
          let angle_rad := if cross < 0 then -angle_rad else angle_rad
          [normalized_food_distance, angle_rad / o.pi]
        else [normalized_food_distance, 0]
  let neighborSection : List ℚ :=
    let nn := all_creatures.foldl
      (fun (best : ℚ × Option Creature) other =>
        if other = c then best
        else
          let dist := o.hypot (c.x - other.x) (c.y - other.y)
          if dist < best.1 then (dist, some other) else best)
      (initBig, none)
    match nn.2 with
    | none => [0, 0, 0]
    | some nbr =>
      let max_possible_distance := o.hypot P.WIDTH P.HEIGHT
      let normalized_neighbor_distance := nn.1 / max_possible_distance
      let maxSpeed := P.CREATURE_BASE_SPEED * P.BURST_SPEED_MULTIPLIER
      let normalized_neighbor_speed := nbr.current_speed / maxSpeed
      let nvx := nbr.x - c.x
      let nvy := nbr.y - c.y
      let dot := nvx * heading_x + nvy * heading_y
      let magN := o.hypot nvx nvy
      let magH := o.hypot heading_x heading_y
      if magN > 0 ∧ magH > 0 then
        let clamped := max (-1) (min 1 (dot / (magN * magH)))
        let angle_rad := o.acos clamped
        let cross := heading_x * nvy - heading_y * nvx
        let angle_rad := if cross < 0 then -angle_rad else angle_rad
        [normalized_neighbor_distance, normalized_neighbor_speed,
          angle_rad / o.pi]
      else
        -- The source appends TWO neutral entries here (inputs.extend([0.0,
        -- 0.0]) at creatures.py line 238) after having already appended the
        -- distance and speed entries, unlike the matching food and obstacle
        -- branches which append one.
        [normalized_neighbor_distance, normalized_neighbor_speed, 0, 0]
  let obstacleSection : List ℚ :=
    if obstacles.isEmpty then [0, 0]
    else
      let no := obstacles.foldl
        (fun (best : ℚ × Option Obstacle) obs =>
          let closest_x := max obs.x (min c.x (obs.x + obs.width))
          let closest_y := max obs.y (min c.y (obs.y + obs.height))
          let dist := o.hypot (c.x - closest_x) (c.y - closest_y) - c.radius
          if dist < best.1 then (dist, some obs) else best)
        (initBig, none)
      match no.2 with
      | none => [0, 0]
      | some nearest_obstacle =>
        let max_possible_distance := o.hypot P.WIDTH P.HEIGHT
        let normalized_obstacle_distance := no.1 / max_possible_distance
        let ocx := nearest_obstacle.x + nearest_obstacle.width / 2
        let ocy := nearest_obstacle.y + nearest_obstacle.height / 2
        let ovx := ocx - c.x
        let ovy := ocy - c.y
        let dot := ovx * heading_x + ovy * heading_y
        let magO := o.hypot ovx ovy
        let magH := o.hypot heading_x heading_y
        if magO > 0 ∧ magH > 0 then
          let clamped := max (-1) (min 1 (dot / (magO * magH)))
          let angle_rad := o.acos clamped
          let cross := heading_x * ovy - heading_y * ovx
          let angle_rad := if cross < 0 then -angle_rad else angle_rad
          [normalized_obstacle_distance, angle_rad / o.pi]
        else [normalized_obstacle_distance, 0]
  selfSection ++ foodSection ++ neighborSection ++ obstacleSection

/-- Creature.think (creatures.py lines 295-331): a two-layer feed-forward
network with the source's ad hoc bounds checks on every multiply.  The j-th
accumulator cell of the source's nested loops is reconstructed as a fold over
the same index range. -/
def think (o : Ops) (c : Creature) (inputs : List ℚ) : ℚ × ℚ :=
  let hidden_outputs := (pyrange c.nn_hidden_nodes).map fun j =>
    let acc := (pyrange NN_INPUT_NODES).foldl
      (fun acc i =>
        if i < c.weights_ih.length ∧ j < (c.weights_ih.getD i []).length then
          acc + inputs.getD i 0 * ((c.weights_ih.getD i []).getD j 0)
        else acc)
      0
    o.tanh (acc + c.biases_h.getD j 0)
  let final_outputs := (pyrange NN_OUTPUT_NODES).map fun j =>
    let acc := (pyrange c.nn_hidden_nodes).foldl
      (fun acc i =>
        if i < c.weights_ho.length ∧ j < (c.weights_ho.getD i []).length then
          acc + hidden_outputs.getD i 0 * ((c.weights_ho.getD i []).getD j 0)
        else acc)
      0
    o.tanh (acc + c.biases_o.getD j 0)
  (final_outputs.getD 0 0, final_outputs.getD 1 0)

/-- The think method only reads self: modelled as returning the unchanged
creature next to its outputs. -/
def think_run (o : Ops) (c : Creature) (inputs : List ℚ) :
    (ℚ × ℚ) × Creature :=
  (think o c inputs, c)

/-- Squared distance from a point to the closest point of a rectangle
(the closest-point computation of creatures.py lines 426-433). -/
def distToRectSq (px py : ℚ) (obs : Obstacle) : ℚ :=
  let closest_x := max obs.x (min px (obs.x + obs.width))
  let closest_y := max obs.y (min py (obs.y + obs.height))
  let dx := px - closest_x
  let dy := py - closest_y
  dx * dx + dy * dy

/-- Creature.check_collision_with_obstacle (creatures.py lines 414-435). -/
def check_collision_with_obstacle (radius px py : ℚ) (obs : Obstacle) : Bool :=
  decide (distToRectSq px py obs < radius * radius)

/-- Speed-burst trigger block of Creature.move (creatures.py lines 346-354). -/
def burstPhase (P : Params) (burst_decision_raw : ℚ) (c : Creature) :
    Creature :=
  if !c.is_bursting ∧ burst_decision_raw > P.BURST_NN_THRESHOLD ∧
      c.energy ≥ P.BURST_ENERGY_COST then
    { c with
      energy := c.energy - P.BURST_ENERGY_COST
      is_bursting := true
      burst_frames_left := P.BURST_DURATION_FRAMES
      bursts_activated_individual := c.bursts_activated_individual + 1
      burst_energy_spent_individual :=
        c.burst_energy_spent_individual + P.BURST_ENERGY_COST }
  else c

/-- Current-speed block of Creature.move (creatures.py lines 356-361). -/
def speedPhase (P : Params) (c : Creature) : Creature :=
  let c := { c with current_speed := c.speed }
  if c.is_bursting then
    let c := { c with
      current_speed := c.speed * P.BURST_SPEED_MULTIPLIER
      burst_frames_left := c.burst_frames_left - 1 }
    if c.burst_frames_left ≤ 0 then { c with is_bursting := false } else c
  else c

/-- Heading-steering update of Creature.move (creatures.py lines 364-365). -/
def steerPhase (P : Params) (steering_force : ℚ) (c : Creature) : Creature :=
  { c with
    direction := pymod (c.direction + steering_force * P.MAX_TURN_ANGLE) 360 }

/-- Proposed position of Creature.move (creatures.py lines 367-369);
pygame.math.Vector2.from_polar takes the angle in degrees. -/
def proposedPos (o : Ops) (c : Creature) : ℚ × ℚ :=
  (c.x + c.current_speed * o.cos (o.radians c.direction),
   c.y + c.current_speed * o.sin (o.radians c.direction))

/-- Obstacle-collision block of Creature.move (creatures.py lines 371-382):
the loop breaks at the first colliding obstacle, applies the energy penalty
clamped at zero, increments the collision counter and reverses the heading;
the Bool records whether a collision occurred. -/
def obstaclePhase (P : Params) (c : Creature) (px py : ℚ)
    (obstaclesRef : List Obstacle) : Creature × Bool :=
  match obstaclesRef.find? (check_collision_with_obstacle c.radius px py) with
  | some _ =>
    ({ c with
        energy := max 0 (c.energy - P.OBSTACLE_PENALTY)
        collisions_individual := c.collisions_individual + 1
        direction := pymod (c.direction + 180) 360 }, true)
  | none => (c, false)

/-- Boundary-collision block of Creature.move (creatures.py lines 389-402).
The source assigns 180 - direction and 360 - direction without re-wrapping
into the 0-360 range. -/
def boundaryPhase (P : Params) (c : Creature) : Creature :=
  let c :=
    if c.x - c.radius < 0 then
      { c with x := c.radius, direction := 180 - c.direction }
    else if c.x + c.radius > P.WIDTH then
      { c with x := P.WIDTH - c.radius, direction := 180 - c.direction }
    else c
  if c.y - c.radius < 0 then
    { c with y := c.radius, direction := 360 - c.direction }
  else if c.y + c.radius > P.HEIGHT then
    { c with y := P.HEIGHT - c.radius, direction := 360 - c.direction }
  else c

/-- Energy-decay line of Creature.move (creatures.py lines 404-406): energy
decays only while the creature is not dying, with no lower clamp. -/
def decayPhase (P : Params) (c : Creature) : Creature :=
  if !c.is_dying then
    { c with energy := c.energy - P.CREATURE_ENERGY_DECAY }
  else c

/-- Dying-state check of Creature.move (creatures.py lines 408-411). -/
def dyingCheckPhase (c : Creature) : Creature :=
  if c.energy ≤ 0 ∧ !c.is_dying then
    { c with is_dying := true, fade_alpha := 255 }
  else c

/-- Creature.move up to and including the position assignment (creatures.py
lines 343-387): sensing, thinking, burst, speed, steering, proposed position,
obstacle resolution, and the move-or-stay decision.  The Bool is the collided
flag.  The source checks collisions against self.obstacles_ref while sensing
uses the obstacles argument; both are passed explicitly here. -/
def preBoundary (P : Params) (o : Ops) (c : Creature) (food_items : List Food)
    (obstacles : List Obstacle) (obstaclesRef : List Obstacle)
    (all_creatures : List Creature) : Creature × Bool :=
  let sensor_inputs := get_sensor_data P o c food_items all_creatures obstacles
  let outputs := think o c sensor_inputs
  let c := burstPhase P outputs.2 c
  let c := speedPhase P c
  let c := steerPhase P outputs.1 c
  let pp := proposedPos o c
  let res := obstaclePhase P c pp.1 pp.2 obstaclesRef
  if res.2 then res
  else ({ res.1 with x := pp.1, y := pp.2 }, false)

/-- Creature.move (creatures.py lines 333-411) in full. -/
def move (P : Params) (o : Ops) (c : Creature) (food_items : List Food)
    (obstacles : List Obstacle) (obstaclesRef : List Obstacle)
    (all_creatures : List Creature) : Creature :=
  dyingCheckPhase
    (decayPhase P
      (boundaryPhase P
        (preBoundary P o c food_items obstacles obstaclesRef
            all_creatures).1))

/-- Loop body of Creature.eat_food (creatures.py lines 511-517): consume one
food item when it overlaps the creature, raising energy clamped at the
maximum and collecting the eaten item. -/
def eatStep (P : Params) (o : Ops) (acc : Creature × List Food) (food : Food) :
    Creature × List Food :=
  let distance :=
    o.sqrt ((acc.1.x - food.x) * (acc.1.x - food.x) +
            (acc.1.y - food.y) * (acc.1.y - food.y))
  if distance < acc.1.radius + food.radius then
    ({ acc.1 with
        energy := min (acc.1.energy + P.FOOD_ENERGY_GAIN)
          P.CREATURE_MAX_ENERGY
        food_eaten_individual := acc.1.food_eaten_individual + 1 },
      acc.2 ++ [food])
  else acc

/-- Creature.eat_food (creatures.py lines 499-518): every overlapped food item
is consumed and the eaten items are returned. -/
def eat_food (P : Params) (o : Ops) (c : Creature)
    (food_items_list : List Food) : Creature × List Food :=
  food_items_list.foldl (eatStep P o) (c, [])

/-- Creature.calculate_fitness (creatures.py lines 520-528), written as the
source's accumulate-then-floor sequence. -/
def calculate_fitness (P : Params) (c : Creature) : ℚ :=
  let fitness := (c.food_eaten_individual : ℚ) * P.FOOD_ENERGY_GAIN
  let fitness := fitness -
    (c.collisions_individual : ℚ) * P.COLLISION_PENALTY_BREEDING
  let fitness := fitness +
    (c.bursts_activated_individual : ℚ) * P.BURST_FITNESS_BONUS
  max 0 fitness

/-- The move-then-eat pair the main loop applies to each creature every frame
(main.py lines 302-304). -/
def creatureUpdate (P : Params) (o : Ops) (c : Creature)
    (food_items : List Food) (obstacles : List Obstacle)
    (obstaclesRef : List Obstacle) (all_creatures : List Creature) :
    Creature × List Food :=
  eat_food P o (move P o c food_items obstacles obstaclesRef all_creatures)
    food_items

/-- The non-dying filter used by the selection block (main.py line 248). -/
def livingOf (creatures : List Creature) : List Creature :=
  creatures.filter fun c => !c.is_dying

/-- Stable descending sort by individual food eaten: the Python
list.sort(key=food_eaten_individual, reverse=True) of main.py line 249. -/
def sortByFoodDesc (l : List Creature) : List Creature :=
  l.mergeSort fun a b =>
    decide (b.food_eaten_individual ≤ a.food_eaten_individual)

/-- Survivor count max(1, int(len * SELECTION_PERCENTAGE)) of main.py
line 251. -/
def numSurvivorsOf (P : Params) (n : ℕ) : ℕ :=
  max 1 (pyint ((n : ℚ) * P.SELECTION_PERCENTAGE)).toNat

/-- Selection block of the main loop (main.py lines 247-252). -/
def selectSurvivors (P : Params) (creatures : List Creature) : List Creature :=
  let living := livingOf creatures
  (sortByFoodDesc living).take (numSurvivorsOf P living.length)

/-- Mutable global state of the main loop (main.py lines 63-69 and 137): the
generation-total burst counters are omitted, no claim mentions them. -/
structure SimState where
  creatures : List Creature
  food_items : List Food
  food_eaten_count : ℕ
  food_eaten_this_generation : ℤ
  current_generation : ℕ
  frame_count_this_generation : ℤ
  obstacles : List Obstacle
deriving DecidableEq

/-- Randomness oracle for one frame: the fresh population drawn on extinction,
the random components of each reproduce call, the random parent choices, the
regenerated obstacle layout, and the food item spawned this frame (none when
random() came out at least 0.1 or when the food cap is reached). -/
structure Oracle where
  freshPopulation : List Creature
  reproduceChild : ℕ → Creature → Creature
  parentPick : ℕ → ℕ
  newObstacles : List Obstacle
  foodSpawn : Option Food

/-- End-of-generation condition of the main loop (main.py line 218 and
evolution_visualizer.py line 417): frame limit reached or per-generation food
cap reached.  The population is not consulted. -/
def genEndCondition (P : Params) (s : SimState) : Bool :=
  decide (s.frame_count_this_generation ≥ P.GENERATION_LENGTH_FRAMES) ||
    decide (s.food_eaten_this_generation ≥ P.FOOD_LIMIT_PER_GENERATION)

/-- Generation rollover block (main.py lines 244-290): selection, rebuild of
the population (reseeding from the oracle when no survivor exists, otherwise
INITIAL_CREATURE_COUNT offspring of randomly chosen survivors), clearing of
food, obstacle regeneration, and counter resets. -/
def generationRollover (P : Params) (orc : Oracle) (s : SimState) : SimState :=
  let survivors := selectSurvivors P s.creatures
  let newGen :=
    match survivors with
    | [] => orc.freshPopulation
    | c₀ :: rest =>
      (pyrange P.INITIAL_CREATURE_COUNT).map fun k =>
        orc.reproduceChild k
          ((c₀ :: rest).getD (orc.parentPick k % (c₀ :: rest).length) c₀)
  { creatures := newGen
    food_items := []
    food_eaten_count := s.food_eaten_count
    food_eaten_this_generation := 0
    current_generation := s.current_generation + 1
    frame_count_this_generation := 0
    obstacles := orc.newObstacles }

/-- Food-spawn block (main.py lines 294-296). -/
def foodSpawnPhase (P : Params) (orc : Oracle) (s : SimState) : SimState :=
  if s.food_items.length < P.MAX_FOOD_COUNT then
    match orc.foodSpawn with
    | some f => { s with food_items := s.food_items ++ [f] }
    | none => s
  else s

/-- Accumulator of the per-creature frame loop: the live lists and counters
plus the indices of creatures marked for removal after fading out. -/
structure FrameAcc where
  creatures : List Creature
  foods : List Food
  eaten_count : ℕ
  eaten_gen : ℤ
  toRemove : List ℕ

/-- Body of the per-creature loop (main.py lines 301-318) for the creature at
index i: move, eat (removing eaten food and bumping both counters), the
energy-depletion check that sets is_dying and zeroes speed, and the fade step
that marks fully faded creatures for removal.  The source calls move with the
food and obstacle lists; the current creature list is passed for the
neighbour sensing that Creature.move's signature requires. -/
def creatureStep (P : Params) (o : Ops) (obstacles : List Obstacle)
    (acc : FrameAcc) (i : ℕ) : FrameAcc :=
  match acc.creatures.get? i with
  | none => acc
  | some creature =>
    let c1 := move P o creature acc.foods obstacles obstacles acc.creatures
    let r := eat_food P o c1 acc.foods
    let c2 := r.1
    let foods' := r.2.foldl (fun fs f => fs.erase f) acc.foods
    let c3 :=
      if c2.energy ≤ 0 ∧ !c2.is_dying then
        { c2 with is_dying := true, speed := 0 }
      else c2
    let c4 :=
      if c3.is_dying then { c3 with fade_alpha := c3.fade_alpha - 5 } else c3
    let rem :=
      if c4.is_dying ∧ c4.fade_alpha ≤ 0 then acc.toRemove ++ [i]
      else acc.toRemove
    { creatures := acc.creatures.set i c4
      foods := foods'
      eaten_count := acc.eaten_count + r.2.length
      eaten_gen := acc.eaten_gen + r.2.length
      toRemove := rem }

/-- Per-creature loop plus the removal sweep (main.py lines 299-326). -/
def frameInner (P : Params) (o : Ops) (s : SimState) : SimState :=
  let init : FrameAcc :=
    { creatures := s.creatures
      foods := s.food_items
      eaten_count := s.food_eaten_count
      eaten_gen := s.food_eaten_this_generation
      toRemove := [] }
  let fin := (pyrange s.creatures.length).foldl (creatureStep P o s.obstacles)
    init
  { s with
    creatures :=
      (fin.creatures.enum.filter fun p => ¬ p.1 ∈ fin.toRemove).map Prod.snd
    food_items := fin.foods
    food_eaten_count := fin.eaten_count
    food_eaten_this_generation := fin.eaten_gen }

/-- One iteration of the update section of the main loop (main.py
lines 214-326): increment the frame counter, perform the generation rollover
when the end condition holds, spawn food, then run the per-creature loop. -/
def simFrame (P : Params) (o : Ops) (orc : Oracle) (s : SimState) : SimState :=
  let s1 := { s with
    frame_count_this_generation := s.frame_count_this_generation + 1 }
  let s2 := if genEndCondition P s1 then generationRollover P orc s1 else s1
  frameInner P o (foodSpawnPhase P orc s2)

/-! Concrete fixtures used by witnesses and counterexamples: the default
configuration of src/app/constants.py (with chosen values for the names
constants.py leaves undefined), an Ops instantiation, and a baseline
creature with the default 4-node hidden layer and zero genome. -/

/-- Default configuration values. -/
def Pdef : Params where
  WIDTH := 1000
  HEIGHT := 700
  CREATURE_RADIUS := 5
  CREATURE_MAX_ENERGY := 100
  CREATURE_ENERGY_DECAY := 1/20
  FOOD_ENERGY_GAIN := 40
  FOOD_RADIUS := 3
  MAX_FOOD_COUNT := 500
  CREATURE_BASE_SPEED := 2
  MAX_TURN_ANGLE := 7
  BURST_ENERGY_COST := 10
  BURST_SPEED_MULTIPLIER := 9/5
  BURST_DURATION_FRAMES := 10
  BURST_NN_THRESHOLD := 1/2
  OBSTACLE_PENALTY := 5
  COLLISION_PENALTY_BREEDING := 10
  BURST_FITNESS_BONUS := 5
  GENERATION_LENGTH_FRAMES := 500
  FOOD_LIMIT_PER_GENERATION := 50
  SELECTION_PERCENTAGE := 3/10
  INITIAL_CREATURE_COUNT := 50

/-- A concrete Ops instantiation for witnesses: trigonometric primitives
collapse to 0 and sqrt distinguishes zero from positive arguments. -/
def opsW : Ops where
  cos := fun _ => 0
  sin := fun _ => 0
  acos := fun _ => 0
  sqrt := fun q => if q ≤ 0 then 0 else 1
  tanh := fun _ => 0
  pi := 3

/-- Baseline creature at mid-field with a zero genome. -/
def cBase : Creature where
  x := 500
  y := 350
  radius := 5
  energy := 50
  direction := 0
  speed := 2
  current_speed := 2
  is_bursting := false
  burst_frames_left := 0
  food_eaten_individual := 0
  collisions_individual := 0
  bursts_activated_individual := 0
  burst_energy_spent_individual := 0
  is_dying := false
  fade_alpha := 255
  nn_hidden_nodes := 4
  weights_ih := [[0,0,0,0],[0,0,0,0],[0,0,0,0]]
  biases_h := [0,0,0,0]
  weights_ho := [[0,0],[0,0],[0,0],[0,0]]
  biases_o := [0,0]

/-- Python float modulo with a positive divisor lands in [0, divisor). -/
theorem pymod_bounds (a : ℚ) {b : ℚ} (hb : 0 < b) :
    0 ≤ pymod a b ∧ pymod a b < b := by
  unfold pymod
  have h1 : ((⌊a / b⌋ : ℤ) : ℚ) ≤ a / b := Int.floor_le _
  have h2 : a / b < (⌊a / b⌋ : ℤ) + 1 := Int.lt_floor_add_one _
  have h3 : b * (a / b) = a := by field_simp
  constructor
  · nlinarith [mul_le_mul_of_nonneg_left h1 hb.le]
  · nlinarith [mul_lt_mul_of_pos_left h2 hb]

/-! Claim theorems. -/

/-- C8: for every creature and every value of its lifetime counters, the
fitness equals food_eaten * food_energy_gain - collisions * collision_penalty
+ bursts_activated * burst_bonus floored at 0, and is therefore nonnegative. -/
theorem C8_fitness_formula_and_nonneg (P : Params) (c : Creature) :
    calculate_fitness P c =
      max 0 ((c.food_eaten_individual : ℚ) * P.FOOD_ENERGY_GAIN -
        (c.collisions_individual : ℚ) * P.COLLISION_PENALTY_BREEDING +
        (c.bursts_activated_individual : ℚ) * P.BURST_FITNESS_BONUS) ∧
    0 ≤ calculate_fitness P c :=
  ⟨rfl, le_max_left 0 _⟩

/-- C9: the neural decision function is deterministic and stateless — a call
leaves the creature (hence its genome) unchanged, and a second call on the
state produced by the first returns the identical output pair. -/
theorem C9_think_deterministic_stateless (o : Ops) (c : Creature)
    (inputs : List ℚ) :
    (think_run o c inputs).2 = c ∧
    (think_run o (think_run o c inputs).2 inputs).1 =
      (think_run o c inputs).1 :=
  ⟨rfl, rfl⟩

/-- C10: immediately after the obstacle-collision branch applies its energy
penalty, the creature's energy is at least 0, even when the penalty exceeds
the remaining energy, because the branch clamps with max(0, energy). -/
theorem C10_obstacle_penalty_energy_nonneg (P : Params) (c : Creature)
    (px py : ℚ) (obstaclesRef : List Obstacle)
    (h : (obstaclesRef.find?
      (check_collision_with_obstacle c.radius px py)).isSome = true) :
    0 ≤ ((obstaclePhase P c px py obstaclesRef).1).energy := by
  unfold obstaclePhase
  rcases hs : obstaclesRef.find? (check_collision_with_obstacle c.radius px py)
    with _ | obs
  · rw [hs] at h
    exact absurd h (by simp)
  · simp only [hs]
    exact le_max_left 0 _

/-- Obstacle fixture: a 10 by 10 square whose centre is (100, 100). -/
def obsA : Obstacle where
  x := 95
  y := 95
  width := 10
  height := 10

/-- Creature fixture standing exactly at the centre of obsA. -/
def cInside : Creature := { cBase with x := 100, y := 100 }

/-- C10 witness: the clamp at a concrete colliding configuration in which the
penalty (5) is larger than the remaining energy (3). -/
theorem C10_obstacle_penalty_energy_nonneg_witness :
    (([obsA].find? (check_collision_with_obstacle
      ({ cInside with energy := 3 } : Creature).radius 100 100)).isSome
        = true) ∧
    0 ≤ ((obstaclePhase Pdef { cInside with energy := 3 } 100 100
      [obsA]).1).energy := by
  have hfind : ([obsA].find? (check_collision_with_obstacle
      ({ cInside with energy := 3 } : Creature).radius 100 100)).isSome
        = true := by
    have hp : check_collision_with_obstacle
        ({ cInside with energy := 3 } : Creature).radius 100 100 obsA
          = true := by
      simp only [check_collision_with_obstacle, distToRectSq, obsA, cInside,
        cBase, decide_eq_true_eq]
      norm_num
    simp [List.find?, hp]
  exact ⟨hfind,
    C10_obstacle_penalty_energy_nonneg Pdef { cInside with energy := 3 }
      100 100 [obsA] hfind⟩

/-- C6 (amended): when the proposed position collides with some obstacle of
the reference list, the collision branch applies the energy penalty clamped
at zero, increments the collisions counter, reverses the heading by 180
degrees wrapped into [0, 360), keeps the pre-move position, and handles only
the first colliding obstacle in iteration order. -/
theorem C6_obstacle_collision_branch (P : Params) (c : Creature) (px py : ℚ)
    (refs : List Obstacle) (obs : Obstacle)
    (h : refs.find? (check_collision_with_obstacle c.radius px py)
      = some obs) :
    obstaclePhase P c px py refs =
      ({ c with
          energy := max 0 (c.energy - P.OBSTACLE_PENALTY)
          collisions_individual := c.collisions_individual + 1
          direction := pymod (c.direction + 180) 360 }, true) := by
  unfold obstaclePhase
  rw [h]

/-- C6 witness: the collision branch at a concrete colliding configuration. -/
theorem C6_obstacle_collision_branch_witness :
    ([obsA].find? (check_collision_with_obstacle cInside.radius 100 100)
      = some obsA) ∧
    obstaclePhase Pdef cInside 100 100 [obsA] =
      ({ cInside with
          energy := max 0 (cInside.energy - Pdef.OBSTACLE_PENALTY)
          collisions_individual := cInside.collisions_individual + 1
          direction := pymod (cInside.direction + 180) 360 }, true) := by
  have hp : check_collision_with_obstacle cInside.radius 100 100 obsA
      = true := by
    simp only [check_collision_with_obstacle, distToRectSq, obsA, cInside,
      cBase, decide_eq_true_eq]
    norm_num
  have hfind : [obsA].find? (check_collision_with_obstacle cInside.radius
      100 100) = some obsA := by
    simp [List.find?, hp]
  exact ⟨hfind,
    C6_obstacle_collision_branch Pdef cInside 100 100 [obsA] obsA hfind⟩

/-- C1 (amended): a frame of the running simulation performs the generation
rollover exactly when the incremented frame counter reaches the configured
generation length or the per-generation food counter reaches the configured
cap; the population — in particular an empty population — is not consulted. -/
theorem C1_generation_end_iff_limits (P : Params) (o : Ops) (orc : Oracle)
    (s : SimState) :
    (simFrame P o orc s).current_generation = s.current_generation + 1 ↔
      (s.frame_count_this_generation + 1 ≥ P.GENERATION_LENGTH_FRAMES ∨
       s.food_eaten_this_generation ≥ P.FOOD_LIMIT_PER_GENERATION) := by
  have hframe : ∀ t, (frameInner P o t).current_generation =
      t.current_generation := fun t => rfl
  have hspawn : ∀ t, (foodSpawnPhase P orc t).current_generation =
      t.current_generation := by
    intro t
    unfold foodSpawnPhase
    split
    · rcases orc.foodSpawn with _ | f <;> rfl
    · rfl
  have hroll : ∀ t, (generationRollover P orc t).current_generation =
      t.current_generation + 1 := fun t => rfl
  unfold simFrame
  dsimp only
  by_cases h : genEndCondition P
      { s with frame_count_this_generation :=
          s.frame_count_this_generation + 1 } = true
  · rw [if_pos h, hframe, hspawn, hroll]
    have h2 : s.frame_count_this_generation + 1 ≥ P.GENERATION_LENGTH_FRAMES ∨
        s.food_eaten_this_generation ≥ P.FOOD_LIMIT_PER_GENERATION := by
      simpa [genEndCondition] using h
    simp [h2]
  · rw [if_neg h, hframe, hspawn]
    have h2 : ¬(s.frame_count_this_generation + 1 ≥
          P.GENERATION_LENGTH_FRAMES) ∧
        ¬(s.food_eaten_this_generation ≥ P.FOOD_LIMIT_PER_GENERATION) := by
      simpa [genEndCondition, not_or] using h
    simp [h2.1, h2.2]

/-- A state whose creature collection is empty, at the start of a generation,
with both limits far from reached. -/
def sEmpty : SimState where
  creatures := []
  food_items := []
  food_eaten_count := 0
  food_eaten_this_generation := 0
  current_generation := 0
  frame_count_this_generation := 0
  obstacles := []

/-- Oracle fixture drawing nothing. -/
def orcNil : Oracle where
  freshPopulation := []
  reproduceChild := fun _ c => c
  parentPick := fun _ => 0
  newObstacles := []
  foodSpawn := none

/-- C1 counterexample: a world whose creature collection is empty at the
start of a frame, with the frame and food limits not reached, does NOT end
its generation on that frame — the generation counter is unchanged, refuting
the population-empty disjunct of the claim. -/
theorem C1_counterexample :
    sEmpty.creatures = [] ∧
    ¬(sEmpty.frame_count_this_generation + 1 ≥
        Pdef.GENERATION_LENGTH_FRAMES) ∧
    ¬(sEmpty.food_eaten_this_generation ≥ Pdef.FOOD_LIMIT_PER_GENERATION) ∧
    (simFrame Pdef opsW orcNil sEmpty).current_generation =
      sEmpty.current_generation := by
  refine ⟨rfl, by norm_num [sEmpty, Pdef], by norm_num [sEmpty, Pdef], ?_⟩
  have hcond : genEndCondition Pdef
      { sEmpty with frame_count_this_generation :=
          sEmpty.frame_count_this_generation + 1 } = false := by
    simp [genEndCondition, sEmpty, Pdef]
  unfold simFrame
  dsimp only
  rw [hcond]
  rfl

/-! Preservation lemmas for the phases of Creature.move. -/

theorem burstPhase_direction (P : Params) (r : ℚ) (c : Creature) :
    (burstPhase P r c).direction = c.direction := by
  unfold burstPhase
  split <;> rfl

theorem speedPhase_direction (P : Params) (c : Creature) :
    (speedPhase P c).direction = c.direction := by
  unfold speedPhase
  dsimp only
  split
  · split <;> rfl
  · rfl

theorem speedPhase_energy (P : Params) (c : Creature) :
    (speedPhase P c).energy = c.energy := by
  unfold speedPhase
  dsimp only
  split
  · split <;> rfl
  · rfl

theorem steerPhase_energy (P : Params) (s : ℚ) (c : Creature) :
    (steerPhase P s c).energy = c.energy := rfl

theorem boundaryPhase_energy (P : Params) (c : Creature) :
    (boundaryPhase P c).energy = c.energy := by
  unfold boundaryPhase
  dsimp only
  (repeat' split) <;> rfl

theorem boundaryPhase_direction_id (P : Params) (c : Creature)
    (hx1 : ¬(c.x - c.radius < 0)) (hx2 : ¬(c.x + c.radius > P.WIDTH))
    (hy1 : ¬(c.y - c.radius < 0)) (hy2 : ¬(c.y + c.radius > P.HEIGHT)) :
    boundaryPhase P c = c := by
  unfold boundaryPhase
  rw [if_neg hx1, if_neg hx2, if_neg hy1, if_neg hy2]

theorem decayPhase_direction (P : Params) (c : Creature) :
    (decayPhase P c).direction = c.direction := by
  unfold decayPhase
  split <;> rfl

theorem dyingCheckPhase_direction (c : Creature) :
    (dyingCheckPhase c).direction = c.direction := by
  unfold dyingCheckPhase
  split <;> rfl

theorem dyingCheckPhase_energy (c : Creature) :
    (dyingCheckPhase c).energy = c.energy := by
  unfold dyingCheckPhase
  split <;> rfl

theorem obstaclePhase_direction_bounds (P : Params) (c : Creature)
    (px py : ℚ) (refs : List Obstacle)
    (h : 0 ≤ c.direction ∧ c.direction < 360) :
    0 ≤ (obstaclePhase P c px py refs).1.direction ∧
    (obstaclePhase P c px py refs).1.direction < 360 := by
  unfold obstaclePhase
  rcases hf : refs.find? (check_collision_with_obstacle c.radius px py)
    with _ | obs
  · exact h
  · exact pymod_bounds (c.direction + 180) (by norm_num)

theorem steerPhase_direction_bounds (P : Params) (s : ℚ) (c : Creature) :
    0 ≤ (steerPhase P s c).direction ∧ (steerPhase P s c).direction < 360 :=
  pymod_bounds _ (by norm_num)

theorem preBoundary_direction_bounds (P : Params) (o : Ops) (c : Creature)
    (food : List Food) (obs refs : List Obstacle) (all : List Creature) :
    0 ≤ (preBoundary P o c food obs refs all).1.direction ∧
    (preBoundary P o c food obs refs all).1.direction < 360 := by
  unfold preBoundary
  dsimp only
  split
  · exact obstaclePhase_direction_bounds P _ _ _ _
      (steerPhase_direction_bounds P _ _)
  · exact obstaclePhase_direction_bounds P _ _ _ _
      (steerPhase_direction_bounds P _ _)

/-- C7 (amended): the heading lies in [0, 360) at the end of every frame in
which no boundary reflection fires: the steering update and the obstacle
bounce both wrap with the modulo, but the boundary reflections assign
180 - direction and 360 - direction unwrapped, so the in-range guarantee
holds only away from the world edges. -/
theorem C7_heading_in_range_no_boundary (P : Params) (o : Ops) (c : Creature)
    (food : List Food) (obs refs : List Obstacle) (all : List Creature)
    (hx1 : ¬((preBoundary P o c food obs refs all).1.x -
      (preBoundary P o c food obs refs all).1.radius < 0))
    (hx2 : ¬((preBoundary P o c food obs refs all).1.x +
      (preBoundary P o c food obs refs all).1.radius > P.WIDTH))
    (hy1 : ¬((preBoundary P o c food obs refs all).1.y -
      (preBoundary P o c food obs refs all).1.radius < 0))
    (hy2 : ¬((preBoundary P o c food obs refs all).1.y +
      (preBoundary P o c food obs refs all).1.radius > P.HEIGHT)) :
    0 ≤ (move P o c food obs refs all).direction ∧
    (move P o c food obs refs all).direction < 360 := by
  unfold move
  rw [boundaryPhase_direction_id P _ hx1 hx2 hy1 hy2, dyingCheckPhase_direction,
    decayPhase_direction]
  exact preBoundary_direction_bounds P o c food obs refs all

/-- Ops fixture approximating a heading of 190 degrees: cos is about -0.985
and sin about -0.174. -/
def opsC7 : Ops :=
  { opsW with cos := fun _ => -197/200, sin := fun _ => -87/500 }

/-- Creature fixture heading left (190 degrees) one step away from the left
wall. -/
def cEdge : Creature := { cBase with x := 6, direction := 190 }

/-- C7 counterexample: a frame in which the left-wall reflection fires leaves
the heading at 180 - 190 = -10, outside [0, 360). -/
theorem C7_counterexample :
    (move Pdef opsC7 cEdge [] [] [] [cEdge]).direction = -10 ∧
    ¬(0 ≤ (move Pdef opsC7 cEdge [] [] [] [cEdge]).direction) := by
  have h : (move Pdef opsC7 cEdge [] [] [] [cEdge]).direction = -10 := by
    norm_num [move, preBoundary, get_sensor_data, think, burstPhase,
      speedPhase, steerPhase, proposedPos, obstaclePhase, boundaryPhase,
      decayPhase, dyingCheckPhase, pymod, pyrange, opsC7, opsW, cEdge, cBase,
      Pdef, Ops.radians, Ops.hypot, List.find?]
  exact ⟨h, by rw [h]; norm_num⟩

/-- C7 witness: a mid-field frame with no boundary reflection, where the
theorem applies and the final heading is in range. -/
theorem C7_heading_in_range_no_boundary_witness :
    (¬((preBoundary Pdef opsW cBase [] [] [] [cBase]).1.x -
        (preBoundary Pdef opsW cBase [] [] [] [cBase]).1.radius < 0) ∧
      ¬((preBoundary Pdef opsW cBase [] [] [] [cBase]).1.x +
        (preBoundary Pdef opsW cBase [] [] [] [cBase]).1.radius >
          Pdef.WIDTH) ∧
      ¬((preBoundary Pdef opsW cBase [] [] [] [cBase]).1.y -
        (preBoundary Pdef opsW cBase [] [] [] [cBase]).1.radius < 0) ∧
      ¬((preBoundary Pdef opsW cBase [] [] [] [cBase]).1.y +
        (preBoundary Pdef opsW cBase [] [] [] [cBase]).1.radius >
          Pdef.HEIGHT)) ∧
    (0 ≤ (move Pdef opsW cBase [] [] [] [cBase]).direction ∧
      (move Pdef opsW cBase [] [] [] [cBase]).direction < 360) := by
  have hx : (preBoundary Pdef opsW cBase [] [] [] [cBase]).1.x = 500 := by
    norm_num [preBoundary, get_sensor_data, think, burstPhase, speedPhase,
      steerPhase, proposedPos, obstaclePhase, pymod, pyrange, opsW, cBase,
      Pdef, Ops.radians, Ops.hypot, List.find?]
  have hy : (preBoundary Pdef opsW cBase [] [] [] [cBase]).1.y = 350 := by
    norm_num [preBoundary, get_sensor_data, think, burstPhase, speedPhase,
      steerPhase, proposedPos, obstaclePhase, pymod, pyrange, opsW, cBase,
      Pdef, Ops.radians, Ops.hypot, List.find?]
  have hr : (preBoundary Pdef opsW cBase [] [] [] [cBase]).1.radius = 5 := by
    norm_num [preBoundary, get_sensor_data, think, burstPhase, speedPhase,
      steerPhase, proposedPos, obstaclePhase, pymod, pyrange, opsW, cBase,
      Pdef, Ops.radians, Ops.hypot, List.find?]
  have h1 : ¬((preBoundary Pdef opsW cBase [] [] [] [cBase]).1.x -
      (preBoundary Pdef opsW cBase [] [] [] [cBase]).1.radius < 0) := by
    rw [hx, hr]; norm_num
  have h2 : ¬((preBoundary Pdef opsW cBase [] [] [] [cBase]).1.x +
      (preBoundary Pdef opsW cBase [] [] [] [cBase]).1.radius >
        Pdef.WIDTH) := by
    rw [hx, hr]; norm_num [Pdef]
  have h3 : ¬((preBoundary Pdef opsW cBase [] [] [] [cBase]).1.y -
      (preBoundary Pdef opsW cBase [] [] [] [cBase]).1.radius < 0) := by
    rw [hy, hr]; norm_num
  have h4 : ¬((preBoundary Pdef opsW cBase [] [] [] [cBase]).1.y +
      (preBoundary Pdef opsW cBase [] [] [] [cBase]).1.radius >
        Pdef.HEIGHT) := by
    rw [hy, hr]; norm_num [Pdef]
  exact ⟨⟨h1, h2, h3, h4⟩,
    C7_heading_in_range_no_boundary Pdef opsW cBase [] [] [] [cBase]
      h1 h2 h3 h4⟩

/-! Energy-bound lemmas for the phases of Creature.move. -/

theorem burstPhase_energy_bounds (P : Params) (r : ℚ) (c : Creature)
    (hb : 0 ≤ c.energy) (hm : c.energy ≤ P.CREATURE_MAX_ENERGY)
    (hcost : 0 ≤ P.BURST_ENERGY_COST) :
    0 ≤ (burstPhase P r c).energy ∧
    (burstPhase P r c).energy ≤ P.CREATURE_MAX_ENERGY := by
  unfold burstPhase
  split
  case isTrue h => exact ⟨by dsimp only; linarith [h.2.2], by dsimp only; linarith⟩
  case isFalse h => exact ⟨hb, hm⟩

theorem obstaclePhase_energy_bounds (P : Params) (c : Creature) (px py : ℚ)
    (refs : List Obstacle)
    (hb : 0 ≤ c.energy) (hm : c.energy ≤ P.CREATURE_MAX_ENERGY)
    (hpen : 0 ≤ P.OBSTACLE_PENALTY) :
    0 ≤ (obstaclePhase P c px py refs).1.energy ∧
    (obstaclePhase P c px py refs).1.energy ≤ P.CREATURE_MAX_ENERGY := by
  unfold obstaclePhase
  rcases hf : refs.find? (check_collision_with_obstacle c.radius px py)
    with _ | obs
  · exact ⟨hb, hm⟩
  · refine ⟨le_max_left 0 _, max_le (le_trans hb hm) ?_⟩
    dsimp only
    nlinarith [le_max_left (0 : ℚ) (c.energy - P.OBSTACLE_PENALTY)]

theorem decayPhase_energy_bounds (P : Params) (c : Creature)
    (hb : 0 ≤ c.energy) (hm : c.energy ≤ P.CREATURE_MAX_ENERGY)
    (hdec : 0 ≤ P.CREATURE_ENERGY_DECAY) :
    -P.CREATURE_ENERGY_DECAY ≤ (decayPhase P c).energy ∧
    (decayPhase P c).energy ≤ P.CREATURE_MAX_ENERGY := by
  unfold decayPhase
  split
  · exact ⟨by dsimp only; linarith, by dsimp only; linarith⟩
  · exact ⟨by linarith, hm⟩

theorem preBoundary_energy_bounds (P : Params) (o : Ops) (c : Creature)
    (food : List Food) (obs refs : List Obstacle) (all : List Creature)
    (hb : 0 ≤ c.energy) (hm : c.energy ≤ P.CREATURE_MAX_ENERGY)
    (hcost : 0 ≤ P.BURST_ENERGY_COST) (hpen : 0 ≤ P.OBSTACLE_PENALTY) :
    0 ≤ (preBoundary P o c food obs refs all).1.energy ∧
    (preBoundary P o c food obs refs all).1.energy ≤
      P.CREATURE_MAX_ENERGY := by
  have hmid : ∀ s r : ℚ,
      0 ≤ (steerPhase P s (speedPhase P (burstPhase P r c))).energy ∧
      (steerPhase P s (speedPhase P (burstPhase P r c))).energy ≤
        P.CREATURE_MAX_ENERGY := by
    intro s r
    rw [steerPhase_energy, speedPhase_energy]
    exact burstPhase_energy_bounds P r c hb hm hcost
  unfold preBoundary
  dsimp only
  split
  · exact obstaclePhase_energy_bounds P _ _ _ _ (hmid _ _).1 (hmid _ _).2 hpen
  · exact obstaclePhase_energy_bounds P _ _ _ _ (hmid _ _).1 (hmid _ _).2 hpen

theorem move_energy_bounds (P : Params) (o : Ops) (c : Creature)
    (food : List Food) (obs refs : List Obstacle) (all : List Creature)
    (hb : 0 ≤ c.energy) (hm : c.energy ≤ P.CREATURE_MAX_ENERGY)
    (hcost : 0 ≤ P.BURST_ENERGY_COST) (hpen : 0 ≤ P.OBSTACLE_PENALTY)
    (hdec : 0 ≤ P.CREATURE_ENERGY_DECAY) :
    -P.CREATURE_ENERGY_DECAY ≤ (move P o c food obs refs all).energy ∧
    (move P o c food obs refs all).energy ≤ P.CREATURE_MAX_ENERGY := by
  have hpre := preBoundary_energy_bounds P o c food obs refs all hb hm hcost
    hpen
  unfold move
  rw [dyingCheckPhase_energy]
  exact decayPhase_energy_bounds P _
    (by rw [boundaryPhase_energy]; exact hpre.1)
    (by rw [boundaryPhase_energy]; exact hpre.2) hdec

theorem eat_fold_energy_bounds (P : Params) (o : Ops) (lb : ℚ) (hlb : lb ≤ 0)
    (hgain : 0 ≤ P.FOOD_ENERGY_GAIN) (hM0 : 0 ≤ P.CREATURE_MAX_ENERGY) :
    ∀ (foods : List Food) (acc : Creature × List Food),
      lb ≤ acc.1.energy → acc.1.energy ≤ P.CREATURE_MAX_ENERGY →
      lb ≤ (foods.foldl (eatStep P o) acc).1.energy ∧
      (foods.foldl (eatStep P o) acc).1.energy ≤ P.CREATURE_MAX_ENERGY := by
  intro foods
  induction foods with
  | nil => exact fun acc h1 h2 => ⟨h1, h2⟩
  | cons f fs ih =>
    intro acc h1 h2
    rw [List.foldl_cons]
    have hstep : lb ≤ (eatStep P o acc f).1.energy ∧
        (eatStep P o acc f).1.energy ≤ P.CREATURE_MAX_ENERGY := by
      unfold eatStep
      dsimp only
      split
      · refine ⟨le_min (by linarith) (by linarith), min_le_right _ _⟩
      · exact ⟨h1, h2⟩
    exact ih _ hstep.1 hstep.2

/-- C2 (amended): for every per-frame update (movement with energy decay,
burst triggering, obstacle-collision penalty, and eating), a creature that
starts the frame with 0 ≤ energy ≤ max_energy ends it with
-decay ≤ energy ≤ max_energy: the upper clamp always holds, but the decay
step subtracts without a lower clamp, so the lower bound is -decay rather
than the claimed 0. -/
theorem C2_energy_bounds_after_update (P : Params) (o : Ops) (c : Creature)
    (foods : List Food) (obs refs : List Obstacle) (all : List Creature)
    (hb : 0 ≤ c.energy) (hm : c.energy ≤ P.CREATURE_MAX_ENERGY)
    (hdec : 0 ≤ P.CREATURE_ENERGY_DECAY) (hgain : 0 ≤ P.FOOD_ENERGY_GAIN)
    (hcost : 0 ≤ P.BURST_ENERGY_COST) (hpen : 0 ≤ P.OBSTACLE_PENALTY) :
    -P.CREATURE_ENERGY_DECAY ≤
      (creatureUpdate P o c foods obs refs all).1.energy ∧
    (creatureUpdate P o c foods obs refs all).1.energy ≤
      P.CREATURE_MAX_ENERGY := by
  have hmv := move_energy_bounds P o c foods obs refs all hb hm hcost hpen
    hdec
  unfold creatureUpdate eat_food
  exact eat_fold_energy_bounds P o (-P.CREATURE_ENERGY_DECAY)
    (by linarith) hgain (le_trans hb hm) foods _ hmv.1 hmv.2

/-- Creature fixture with a sliver of energy left. -/
def cLow : Creature := { cBase with energy := 1/100 }

/-- C2 counterexample: a creature entering the frame with valid energy 1/100
leaves the move-and-eat update with energy 1/100 - 1/20 < 0, refuting the
claimed lower bound of 0. -/
theorem C2_counterexample :
    0 ≤ cLow.energy ∧ cLow.energy ≤ Pdef.CREATURE_MAX_ENERGY ∧
    (creatureUpdate Pdef opsW cLow [] [] [] [cLow]).1.energy < 0 := by
  refine ⟨by norm_num [cLow, cBase], by norm_num [cLow, cBase, Pdef], ?_⟩
  norm_num [creatureUpdate, eat_food, eatStep, move, preBoundary,
    get_sensor_data, think, burstPhase, speedPhase, steerPhase, proposedPos,
    obstaclePhase, boundaryPhase, decayPhase, dyingCheckPhase, pymod, pyrange,
    opsW, cLow, cBase, Pdef, Ops.radians, Ops.hypot, List.find?]

/-- C2 witness: the amended bounds at a concrete mid-field frame. -/
theorem C2_energy_bounds_after_update_witness :
    (0 ≤ cBase.energy ∧ cBase.energy ≤ Pdef.CREATURE_MAX_ENERGY ∧
      0 ≤ Pdef.CREATURE_ENERGY_DECAY ∧ 0 ≤ Pdef.FOOD_ENERGY_GAIN ∧
      0 ≤ Pdef.BURST_ENERGY_COST ∧ 0 ≤ Pdef.OBSTACLE_PENALTY) ∧
    (-Pdef.CREATURE_ENERGY_DECAY ≤
        (creatureUpdate Pdef opsW cBase [] [] [] [cBase]).1.energy ∧
      (creatureUpdate Pdef opsW cBase [] [] [] [cBase]).1.energy ≤
        Pdef.CREATURE_MAX_ENERGY) :=
  ⟨⟨by norm_num [cBase], by norm_num [cBase, Pdef], by norm_num [Pdef],
      by norm_num [Pdef], by norm_num [Pdef], by norm_num [Pdef]⟩,
    C2_energy_bounds_after_update Pdef opsW cBase [] [] [] [cBase]
      (by norm_num [cBase]) (by norm_num [cBase, Pdef]) (by norm_num [Pdef])
      (by norm_num [Pdef]) (by norm_num [Pdef]) (by norm_num [Pdef])⟩

/-- Fading-out creature fixture with exhausted energy. -/
def cDying : Creature := { cBase with is_dying := true, energy := 0 }

/-- Food fixture lying exactly under cDying. -/
def fDot : Food where
  x := 500
  y := 350
  radius := 3

/-- Loop accumulator holding one dying creature and one overlapping food. -/
def accDying : FrameAcc where
  creatures := [cDying]
  foods := [fDot]
  eaten_count := 0
  eaten_gen := 0
  toRemove := []

/-- C5 (amended): a dying creature is NOT excluded from eating — eat_food
ignores is_dying, consuming overlapped food, bumping the counter and raising
energy — and the only update step gated on is_dying is the per-frame energy
decay, which is skipped. -/
theorem C5_dying_skips_only_decay (P : Params) (o : Ops) (c : Creature)
    (f : Food) (hd : c.is_dying = true)
    (he : o.sqrt ((c.x - f.x) * (c.x - f.x) + (c.y - f.y) * (c.y - f.y)) <
      c.radius + f.radius) :
    (decayPhase P c).energy = c.energy ∧
    (eat_food P o c [f]).1.food_eaten_individual =
      c.food_eaten_individual + 1 ∧
    (eat_food P o c [f]).1.energy =
      min (c.energy + P.FOOD_ENERGY_GAIN) P.CREATURE_MAX_ENERGY := by
  refine ⟨by simp [decayPhase, hd], ?_, ?_⟩ <;>
    simp [eat_food, eatStep, he]

/-- C5 witness: the amended behaviour at the concrete dying creature and
overlapping food fixtures. -/
theorem C5_dying_skips_only_decay_witness :
    (cDying.is_dying = true ∧
      opsW.sqrt ((cDying.x - fDot.x) * (cDying.x - fDot.x) +
        (cDying.y - fDot.y) * (cDying.y - fDot.y)) <
        cDying.radius + fDot.radius) ∧
    ((decayPhase Pdef cDying).energy = cDying.energy ∧
      (eat_food Pdef opsW cDying [fDot]).1.food_eaten_individual =
        cDying.food_eaten_individual + 1 ∧
      (eat_food Pdef opsW cDying [fDot]).1.energy =
        min (cDying.energy + Pdef.FOOD_ENERGY_GAIN)
          Pdef.CREATURE_MAX_ENERGY) := by
  have hd : cDying.is_dying = true := rfl
  have he : opsW.sqrt ((cDying.x - fDot.x) * (cDying.x - fDot.x) +
      (cDying.y - fDot.y) * (cDying.y - fDot.y)) <
      cDying.radius + fDot.radius := by
    norm_num [opsW, cDying, cBase, fDot]
  exact ⟨⟨hd, he⟩, C5_dying_skips_only_decay Pdef opsW cDying fDot hd he⟩

/-- C5 counterexample: the per-frame loop body applied to a dying creature
standing on a food item still runs sensing and eating: its food counter
increments and its energy rises from 0 to 40 during the fade-out, refuting
the claimed exclusion. -/
theorem C5_counterexample :
    cDying.is_dying = true ∧ cDying.energy = 0 ∧
    ((creatureStep Pdef opsW [] accDying 0).creatures.getD 0
        cDying).food_eaten_individual =
      cDying.food_eaten_individual + 1 ∧
    ((creatureStep Pdef opsW [] accDying 0).creatures.getD 0
        cDying).energy = 40 := by
  refine ⟨rfl, rfl, ?_, ?_⟩ <;>
    norm_num [creatureStep, move, preBoundary, get_sensor_data, think,
      burstPhase, speedPhase, steerPhase, proposedPos, obstaclePhase,
      boundaryPhase, decayPhase, dyingCheckPhase, eat_food, eatStep, pymod,
      pyrange, opsW, cDying, cBase, fDot, accDying, Pdef, Ops.radians,
      Ops.hypot, List.find?, List.erase]

/-- C6 counterexample: a creature already standing inside an obstacle whose
proposed move collides ends the frame still inside the rectangle — the
post-step squared distance to the rectangle is 0, below the squared radius,
refuting the claimed post-step clearance. -/
theorem C6_counterexample :
    (preBoundary Pdef opsW cInside [] [obsA] [obsA] [cInside]).2 = true ∧
    distToRectSq (move Pdef opsW cInside [] [obsA] [obsA] [cInside]).x
      (move Pdef opsW cInside [] [obsA] [obsA] [cInside]).y obsA <
      cInside.radius * cInside.radius := by
  have hp : check_collision_with_obstacle (5 : ℚ) 100 100
      (⟨95, 95, 10, 10⟩ : Obstacle) = true := by
    simp only [check_collision_with_obstacle, distToRectSq,
      decide_eq_true_eq]
    norm_num
  constructor <;>
    norm_num [move, preBoundary, get_sensor_data, think, burstPhase,
      speedPhase, steerPhase, proposedPos, obstaclePhase, boundaryPhase,
      decayPhase, dyingCheckPhase, distToRectSq, pymod, pyrange, opsW,
      cInside, cBase, obsA, Pdef, Ops.radians, Ops.hypot, List.find?, hp]

/-- Neighbour fixture standing at exactly the same position as cBase but
distinguishable from it. -/
def cNbr : Creature := { cBase with energy := 80 }

/-- C4: the sensor vector length is 8 for a world with no food, no other
creature and no obstacle, but 9 when the nearest neighbour's position
coincides with the creature's own position — the degenerate-bearing branch of
the neighbour section appends two neutral entries after distance and speed
instead of one, so the vector length is not fixed. -/
theorem C4_sensor_vector_length_bug :
    (get_sensor_data Pdef opsW cBase [] [cBase] []).length = 8 ∧
    (get_sensor_data Pdef opsW cBase [] [cBase, cNbr] []).length = 9 := by
  constructor <;>
    norm_num [get_sensor_data, opsW, cBase, cNbr, Pdef, Ops.radians,
      Ops.hypot]

/-- Configuration fixture selecting the top half. -/
def PdefHalf : Params := { Pdef with SELECTION_PERCENTAGE := 1/2 }

/-- Creature fixture with no food eaten but five bursts (positive fitness). -/
def cA : Creature := { cBase with bursts_activated_individual := 5 }

/-- Creature fixture with one food eaten and many collisions (zero
fitness). -/
def cB : Creature :=
  { cBase with food_eaten_individual := 1, collisions_individual := 100 }

/-- C3 counterexample: with two non-dying creatures, the selection block
picks the one with the higher food count even though the other has strictly
higher calculate_fitness — the sort key is food_eaten_individual, not
fitness. -/
theorem C3_counterexample :
    selectSurvivors PdefHalf [cA, cB] = [cB] ∧
    calculate_fitness PdefHalf cB < calculate_fitness PdefHalf cA := by
  constructor
  · norm_num [selectSurvivors, livingOf, sortByFoodDesc, numSurvivorsOf,
      pyint, cA, cB, cBase, PdefHalf, Pdef, List.mergeSort, List.filter]
  · norm_num [calculate_fitness, cA, cB, cBase, PdefHalf, Pdef]

/-- C3 (amended): at a generation boundary with at least one non-dying
creature, the engine sorts the non-dying creatures in stable descending order
of food_eaten_individual (not of calculate_fitness) and selects exactly
max(1, int(count * selection_percentage)) of them. -/
theorem C3_selection_sorts_by_food_count (P : Params)
    (creatures : List Creature) (hne : livingOf creatures ≠ [])
    (h0 : 0 ≤ P.SELECTION_PERCENTAGE) (h1 : P.SELECTION_PERCENTAGE ≤ 1) :
    (selectSurvivors P creatures).length =
      max 1 (pyint (((livingOf creatures).length : ℚ) *
        P.SELECTION_PERCENTAGE)).toNat ∧
    List.Pairwise
      (fun a b => b.food_eaten_individual ≤ a.food_eaten_individual)
      (selectSurvivors P creatures) := by
  have hn1 : 0 < (livingOf creatures).length := List.length_pos.mpr hne
  have hfloor : (pyint (((livingOf creatures).length : ℚ) *
      P.SELECTION_PERCENTAGE)).toNat ≤ (livingOf creatures).length := by
    have hnn : (0 : ℚ) ≤ ((livingOf creatures).length : ℚ) *
        P.SELECTION_PERCENTAGE := mul_nonneg (by positivity) h0
    rw [pyint, if_pos hnn]
    have hle : ((livingOf creatures).length : ℚ) * P.SELECTION_PERCENTAGE ≤
        ((livingOf creatures).length : ℚ) := by nlinarith
    have hfl : ⌊((livingOf creatures).length : ℚ) *
        P.SELECTION_PERCENTAGE⌋ ≤ ((livingOf creatures).length : ℤ) := by
      calc ⌊((livingOf creatures).length : ℚ) * P.SELECTION_PERCENTAGE⌋ ≤
          ⌊((livingOf creatures).length : ℚ)⌋ := Int.floor_le_floor hle
        _ = ((livingOf creatures).length : ℤ) := Int.floor_natCast _
    exact Int.toNat_le.mpr hfl
  have hnum : numSurvivorsOf P (livingOf creatures).length ≤
      (livingOf creatures).length := max_le hn1 hfloor
  constructor
  · unfold selectSurvivors
    rw [List.length_take]
    unfold sortByFoodDesc
    rw [List.length_mergeSort]
    exact Nat.min_eq_left hnum
  · have htrans : ∀ a b c : Creature,
        decide (b.food_eaten_individual ≤ a.food_eaten_individual) = true →
        decide (c.food_eaten_individual ≤ b.food_eaten_individual) = true →
        decide (c.food_eaten_individual ≤ a.food_eaten_individual)
          = true := by
      intro a b c hab hbc
      simp only [decide_eq_true_eq] at *
      omega
    have htotal : ∀ a b : Creature,
        (decide (b.food_eaten_individual ≤ a.food_eaten_individual) ||
          decide (a.food_eaten_individual ≤ b.food_eaten_individual))
            = true := by
      intro a b
      simp only [Bool.or_eq_true, decide_eq_true_eq]
      exact Nat.le_total _ _
    have hsorted := @List.sorted_mergeSort Creature
      (fun a b => decide (b.food_eaten_individual ≤ a.food_eaten_individual))
      htrans htotal (livingOf creatures)
    have hs2 : List.Pairwise
        (fun a b : Creature =>
          b.food_eaten_individual ≤ a.food_eaten_individual)
        (sortByFoodDesc (livingOf creatures)) := by
      unfold sortByFoodDesc
      exact hsorted.imp (by intro a b h; simpa using h)
    unfold selectSurvivors
    exact List.Pairwise.sublist (List.take_sublist _ _) hs2

/-- C3 witness: the amended selection behaviour at the two-creature
fixture. -/
theorem C3_selection_sorts_by_food_count_witness :
    (livingOf [cA, cB] ≠ [] ∧ 0 ≤ PdefHalf.SELECTION_PERCENTAGE ∧
      PdefHalf.SELECTION_PERCENTAGE ≤ 1) ∧
    ((selectSurvivors PdefHalf [cA, cB]).length =
      max 1 (pyint (((livingOf [cA, cB]).length : ℚ) *
        PdefHalf.SELECTION_PERCENTAGE)).toNat ∧
    List.Pairwise
      (fun a b => b.food_eaten_individual ≤ a.food_eaten_individual)
      (selectSurvivors PdefHalf [cA, cB])) := by
  have hne : livingOf [cA, cB] ≠ [] := by
    simp [livingOf, cA, cB, cBase, List.filter]
  have h0 : (0 : ℚ) ≤ PdefHalf.SELECTION_PERCENTAGE := by
    norm_num [PdefHalf, Pdef]
  have h1 : PdefHalf.SELECTION_PERCENTAGE ≤ 1 := by
    norm_num [PdefHalf, Pdef]
  exact ⟨⟨hne, h0, h1⟩,
    C3_selection_sorts_by_food_count PdefHalf [cA, cB] hne h0 h1⟩

end EvoViz
